import Mathlib

/-!
Verification of the pibooth workflow core (`pibooth/ptb.py`).

The six workflow states, their hooks, the event-finder predicates and the
main loop are embedded as executable Lean functions.  Collaborator modules
that are not part of the analysed source (`pibooth.states`, `pibooth.utils`,
the hardware and rendering drivers) are modelled from the specification:
peripheral calls are recorded in a trace of `Action`s, and the state machine
driver follows the documented do/validate/exit/entry ordering.
-/

namespace Ptb

/-- Keys that the event finders inspect (`pygame.K_ESCAPE`, `K_f`, `K_p`,
`K_e`, `K_LEFT`, `K_RIGHT`); every other key is `other`. -/
inductive PtbKey
  | escape
  | f
  | p
  | e
  | left
  | right
  | other (code : Nat)
deriving DecidableEq

/-- Modelled from the spec: input events produced by the event source
(pygame queue and the debounced button collaborator).  `keydown` carries
whether the CTRL modifier is held (`pygame.key.get_mods() & KMOD_CTRL`),
`buttonDown` carries the physical pin number of the button. -/
inductive Event
  | quit
  | keydown (key : PtbKey) (ctrlMod : Bool)
  | buttonDown (pin : Nat)
  | videoResize (w h : Nat)
deriving DecidableEq

/-- Pin of the picture button: `PtbButton(11, ...)`. -/
def buttonPicturePin : Nat := 11

/-- Pin of the print button: `PtbButton(13, ...)`. -/
def buttonPrintPin : Nat := 13

/-- Predicate of `PtbApplication.find_quit_event`: `pygame.QUIT` or
`KEYDOWN` with `K_ESCAPE`. -/
def quitPred : Event → Bool
  | .quit => true
  | .keydown .escape _ => true
  | _ => false

/-- `PtbApplication.find_quit_event`: first matching event in the list. -/
def find_quit_event (events : List Event) : Option Event :=
  events.find? quitPred

/-- Predicate of `PtbApplication.find_fullscreen_event`: `KEYDOWN` with
`K_f` while CTRL is held. -/
def fullscreenPred : Event → Bool
  | .keydown .f ctrl => ctrl
  | _ => false

/-- `PtbApplication.find_fullscreen_event`. -/
def find_fullscreen_event (events : List Event) : Option Event :=
  events.find? fullscreenPred

/-- Predicate of `PtbApplication.find_picture_event`: `KEYDOWN` with `K_p`,
or `BUTTON_DOWN` on the picture button. -/
def picturePred : Event → Bool
  | .keydown .p _ => true
  | .buttonDown pin => pin == buttonPicturePin
  | _ => false

/-- `PtbApplication.find_picture_event`. -/
def find_picture_event (events : List Event) : Option Event :=
  events.find? picturePred

/-- Predicate of `PtbApplication.find_print_event`: `KEYDOWN` with `K_e`
while CTRL is held, or `BUTTON_DOWN` on the print button. -/
def printPred : Event → Bool
  | .keydown .e ctrl => ctrl
  | .buttonDown pin => pin == buttonPrintPin
  | _ => false

/-- `PtbApplication.find_print_event`. -/
def find_print_event (events : List Event) : Option Event :=
  events.find? printPred

/-- Predicate of `PtbApplication.find_resize_event`: `pygame.VIDEORESIZE`. -/
def resizePred : Event → Bool
  | .videoResize _ _ => true
  | _ => false

/-- `PtbApplication.find_resize_event`. -/
def find_resize_event (events : List Event) : Option Event :=
  events.find? resizePred

/-- Predicate of `PtbApplication.find_choice_event`: `KEYDOWN` with `K_LEFT`
or `K_RIGHT`, or `BUTTON_DOWN` on the picture button. -/
def choicePred : Event → Bool
  | .keydown .left _ => true
  | .keydown .right _ => true
  | .buttonDown pin => pin == buttonPicturePin
  | _ => false

/-- `PtbApplication.find_choice_event`. -/
def find_choice_event (events : List Event) : Option Event :=
  events.find? choicePred

/-- Modelled from the spec: `PoolingTimer` from `pibooth.utils` (not in the
analysed source).  A monotonic countdown checked by polling: `start` records
the current time, `is_timeout` is true once the fixed duration has elapsed
since the last `start`.  Time is measured in abstract time units. -/
structure PoolingTimer where
  timeout : Nat
  startTime : Nat
deriving DecidableEq

/-- Modelled from the spec: `start()` records the current time. -/
def PoolingTimer.start (t : PoolingTimer) (now : Nat) : PoolingTimer :=
  { t with startTime := now }

/-- Modelled from the spec: `is_timeout()` is true once `timeout` time units
have elapsed since the last `start`. -/
def PoolingTimer.is_timeout (t : PoolingTimer) (now : Nat) : Bool :=
  t.timeout ≤ now - t.startTime

/-- Modelled from the spec: the composed image produced by
`generate_picture_from_files` (composition collaborator, not in the analysed
source).  The free model records the arguments of the composition call. -/
structure PtbImage where
  srcs : List String
  footers : List String
  bg : Nat
  txt : Nat
deriving DecidableEq

/-- Modelled from the spec: `compose(paths, footer_lines, background_color,
text_color) -> image`; the free model records its inputs. -/
def generate_picture_from_files (paths : List String) (footers : List String)
    (bg txt : Nat) : PtbImage :=
  ⟨paths, footers, bg, txt⟩

/-- Modelled from the spec: `time.strftime` applied at the current time,
producing a timestamp-derived name; time units stand in for seconds. -/
def strftime (now : Nat) : String :=
  toString now

/-- Configuration values read by the workflow states
(`PtbConfigParser` lookups appearing in `ptb.py`). -/
structure PtbConfig where
  directory : String
  captures : Nat
  preview_countdown : Bool
  preview_delay : Nat
  flash : Bool
  footer_text1 : String
  footer_text2 : String
  bg_color : Nat
  text_color : Nat
deriving DecidableEq

/-- Environment of a run: the configuration and what the print hardware
reports (`printer.is_installed()`). -/
structure Env where
  config : PtbConfig
  printerInstalled : Bool
deriving DecidableEq

/-- Peripheral calls made by the hooks and the main loop, recorded as a
trace: rendering (`window.*`), status lights (`led_*`), capture hardware
(`camera.*`), print hardware (`printer.*`), filesystem and the final
cleanup calls of `main_loop`. -/
inductive Action
  | showIntro (pic : Option PtbImage)
  | showChoice (n : Option Nat)
  | showCountdown (d : Nat)
  | setPictureNumber (k : Nat) (m : Option Nat)
  | sleepDelay (d : Nat)
  | sleepBrief
  | flashWindow (n : Nat)
  | showWait
  | showPrint (pic : Option PtbImage)
  | showFinished
  | ledPictureOn
  | ledPictureOff
  | ledPictureBlink
  | ledPrintOn
  | ledPrintOff
  | ledPrintBlink
  | cameraPreview
  | cameraCapture (file : String)
  | cameraStopPreview
  | printFile (file : String)
  | makeDirs (d : String)
  | savePicture (file : String)
  | toggleFullscreen
  | resizeWindow (w h : Nat)
  | gpioCleanup
  | cameraQuit
  | printerQuit
  | pygameQuit
deriving DecidableEq

/-- Names of the six workflow states registered in `PtbApplication.__init__`. -/
inductive StateName
  | wait
  | choose
  | capture
  | processing
  | print
  | finish
deriving DecidableEq

/-- Session context shared between the states (`PtbApplication` attributes
`dirname`, `captures`, `max_captures`, `previous_picture`,
`previous_picture_file`) together with the per-state objects that persist in
the `State` instances (`StateChoose.timer`, `StatePrint.timer`,
`StatePrint.printed`). -/
structure Sess where
  dirname : Option String
  captures : List String
  max_captures : Option Nat
  previous_picture : Option PtbImage
  previous_picture_file : Option String
  chooseTimer : PoolingTimer
  printTimer : PoolingTimer
  printed : Bool
deriving DecidableEq

/-- Session context right after `PtbApplication.__init__`: empty capture
list, `None` for the scalar fields, and the state objects as built by
`StateChoose.__init__` (`PoolingTimer(8)`), `StatePrint.__init__`
(`PoolingTimer(5)`, `printed = False`). -/
def coldSess : Sess :=
  { dirname := none
    captures := []
    max_captures := none
    previous_picture := none
    previous_picture_file := none
    chooseTimer := ⟨8, 0⟩
    printTimer := ⟨5, 0⟩
    printed := false }

/-- Zero-padded three digit formatting used by the capture file names. -/
def pad3 (n : Nat) : String :=
  let s := toString n
  if 3 ≤ s.length then s else String.mk (List.replicate (3 - s.length) '0') ++ s

/-- `osp.join` on the modelled paths; the `none` branch is unreachable in
the workflow (Python would raise before joining with a `None` dirname). -/
def optJoin (d : Option String) (f : String) : String :=
  match d with
  | some d => d ++ "/" ++ f
  | none => f

namespace StateWait

/-- `StateWait.entry_actions`: show the intro screen with the previous
composed picture. -/
def entry_actions (_env : Env) (_now : Nat) (s : Sess) : Sess × List Action :=
  (s, [.showIntro s.previous_picture])

/-- `StateWait.do_actions`: on a print-request event, if a previous picture
file exists and the printer is installed, blink the print light, send the
file to the printer, pause briefly and restore the steady light. -/
def do_actions (env : Env) (events : List Event) (s : Sess) : Sess × List Action :=
  match find_print_event events, s.previous_picture_file, env.printerInstalled with
  | some _, some f, true => (s, [.ledPrintBlink, .printFile f, .sleepBrief, .ledPrintOn])
  | _, _, _ => (s, [])

/-- `StateWait.exit_actions`: switch the print light off. -/
def exit_actions (s : Sess) : Sess × List Action :=
  (s, [.ledPrintOff])

/-- `StateWait.validate_transition`: go to `choose` on a picture-request
event. -/
def validate_transition (events : List Event) (_s : Sess) : Option StateName :=
  if (find_picture_event events).isSome then some .choose else none

end StateWait

namespace StateChoose

/-- `StateChoose.entry_actions`: picture light on, reload `max_captures`
from configuration, show the choice, start the 8-unit timer. -/
def entry_actions (env : Env) (now : Nat) (s : Sess) : Sess × List Action :=
  ({ s with max_captures := some env.config.captures
            chooseTimer := s.chooseTimer.start now },
   [.ledPictureOn, .showChoice (some env.config.captures)])

/-- `StateChoose.do_actions`: on a choice event, if `max_captures != 1` set
it to 1, else if `max_captures != 4` set it to 4; always refresh the
displayed choice. -/
def do_actions (_env : Env) (events : List Event) (s : Sess) : Sess × List Action :=
  let event := find_choice_event events
  let s' :=
    if event.isSome ∧ s.max_captures ≠ some 1 then { s with max_captures := some 1 }
    else if event.isSome ∧ s.max_captures ≠ some 4 then { s with max_captures := some 4 }
    else s
  (s', [.showChoice s'.max_captures])

/-- `StateChoose.validate_transition`: go to `capture` once the 8-unit timer
has expired. -/
def validate_transition (now : Nat) (s : Sess) : Option StateName :=
  if s.chooseTimer.is_timeout now then some .capture else none

end StateChoose

namespace StateCapture

/-- `StateCapture.entry_actions`: clear the composed picture and its path,
create a fresh timestamp-named cycle directory, start the camera preview. -/
def entry_actions (env : Env) (now : Nat) (s : Sess) : Sess × List Action :=
  let d := env.config.directory ++ "/" ++ strftime now
  ({ s with previous_picture := none
            previous_picture_file := none
            dirname := some d },
   [.makeDirs d, .cameraPreview])

/-- `StateCapture.do_actions`: blink the picture light, update the shot
counter, apply the inter-shot delay (countdown or plain sleep), steady
light, optional flash, take one picture into
`dirname/ptbNNN.jpg` where `NNN` is the current `len(captures)` zero-padded
to three digits, and append that path to `captures`. -/
def do_actions (env : Env) (_events : List Event) (s : Sess) : Sess × List Action :=
  let fname := optJoin s.dirname ("ptb" ++ pad3 s.captures.length ++ ".jpg")
  let pre : List Action :=
    [.ledPictureBlink, .setPictureNumber (s.captures.length + 1) s.max_captures] ++
    (if env.config.preview_countdown then [.showCountdown env.config.preview_delay]
     else [.sleepDelay env.config.preview_delay]) ++
    [.ledPictureOn] ++
    (if env.config.flash then [.flashWindow 2] else [])
  ({ s with captures := s.captures ++ [fname] }, pre ++ [.cameraCapture fname])

/-- `StateCapture.exit_actions`: stop the preview, picture light off. -/
def exit_actions (s : Sess) : Sess × List Action :=
  (s, [.cameraStopPreview, .ledPictureOff])

/-- `StateCapture.validate_transition`: go to `processing` once
`len(captures) >= max_captures`.  The `none` branch is unreachable in the
workflow (`choose` always sets `max_captures` first; Python would raise a
`TypeError` comparing `int` with `None`). -/
def validate_transition (s : Sess) : Option StateName :=
  match s.max_captures with
  | some m => if m ≤ s.captures.length then some .processing else none
  | none => none

end StateCapture

namespace StateProcessing

/-- `StateProcessing.entry_actions`: show the wait indicator, compose the
merged picture from `captures` and the configured footers and colors, and
save it under a timestamp-derived path in the cycle directory. -/
def entry_actions (env : Env) (now : Nat) (s : Sess) : Sess × List Action :=
  let pic := generate_picture_from_files s.captures
    [env.config.footer_text1, env.config.footer_text2]
    env.config.bg_color env.config.text_color
  let f := optJoin s.dirname (strftime now ++ "_ptb.jpg")
  ({ s with previous_picture := some pic
            previous_picture_file := some f },
   [.showWait, .savePicture f])

/-- `StateProcessing.exit_actions`: clear `captures`. -/
def exit_actions (s : Sess) : Sess × List Action :=
  ({ s with captures := [] }, [])

/-- `StateProcessing.validate_transition`: `print` if the printer is
installed, else `finish`. -/
def validate_transition (env : Env) (_s : Sess) : Option StateName :=
  if env.printerInstalled then some .print else some .finish

end StateProcessing

namespace StatePrint

/-- `StatePrint.entry_actions`: display the merged picture, print light on,
start the 5-unit timer.  The `printed` flag is not touched here. -/
def entry_actions (_env : Env) (now : Nat) (s : Sess) : Sess × List Action :=
  ({ s with printTimer := s.printTimer.start now },
   [.showPrint s.previous_picture, .ledPrintOn])

/-- `StatePrint.do_actions`: on a print-request event, if a previous picture
file exists, blink the print light, send the file to the printer, pause,
restore the steady light and set `printed`. -/
def do_actions (_env : Env) (events : List Event) (s : Sess) : Sess × List Action :=
  match find_print_event events, s.previous_picture_file with
  | some _, some f =>
      ({ s with printed := true }, [.ledPrintBlink, .printFile f, .sleepBrief, .ledPrintOn])
  | _, _ => (s, [])

/-- `StatePrint.validate_transition`: go to `finish` once the 5-unit timer
has expired or the `printed` flag is set. -/
def validate_transition (now : Nat) (s : Sess) : Option StateName :=
  if s.printTimer.is_timeout now || s.printed then some .finish else none

end StatePrint

namespace StateFinish

/-- `StateFinish.entry_actions`: show the completion screen and pause
briefly. -/
def entry_actions (_env : Env) (_now : Nat) (s : Sess) : Sess × List Action :=
  (s, [.showFinished, .sleepBrief])

/-- Modelled from the spec: `StateFinish` overrides no transition check, and
a `State` with no custom transition check transitions unconditionally to its
default successor (`'wait'`) every tick. -/
def validate_transition (_s : Sess) : Option StateName :=
  some .wait

end StateFinish

/-- Dispatch of the entry hooks over the six registered states (`wait`,
`wait` and `finish` exits and several hooks are the base-class no-ops). -/
def entryActions (env : Env) (now : Nat) (name : StateName) (s : Sess) :
    Sess × List Action :=
  match name with
  | .wait => StateWait.entry_actions env now s
  | .choose => StateChoose.entry_actions env now s
  | .capture => StateCapture.entry_actions env now s
  | .processing => StateProcessing.entry_actions env now s
  | .print => StatePrint.entry_actions env now s
  | .finish => StateFinish.entry_actions env now s

/-- Dispatch of the per-tick hooks; states without an override use the
base-class no-op (modelled from the spec: hooks default to no-op). -/
def doActions (env : Env) (events : List Event) (name : StateName) (s : Sess) :
    Sess × List Action :=
  match name with
  | .wait => StateWait.do_actions env events s
  | .choose => StateChoose.do_actions env events s
  | .capture => StateCapture.do_actions env events s
  | .processing => (s, [])
  | .print => StatePrint.do_actions env events s
  | .finish => (s, [])

/-- Dispatch of the exit hooks; states without an override use the
base-class no-op (modelled from the spec: hooks default to no-op). -/
def exitActions (name : StateName) (s : Sess) : Sess × List Action :=
  match name with
  | .wait => StateWait.exit_actions s
  | .choose => (s, [])
  | .capture => StateCapture.exit_actions s
  | .processing => StateProcessing.exit_actions s
  | .print => (s, [])
  | .finish => (s, [])

/-- Dispatch of the transition checks over the six registered states. -/
def validateTransition (env : Env) (now : Nat) (events : List Event)
    (name : StateName) (s : Sess) : Option StateName :=
  match name with
  | .wait => StateWait.validate_transition events s
  | .choose => StateChoose.validate_transition now s
  | .capture => StateCapture.validate_transition s
  | .processing => StateProcessing.validate_transition env s
  | .print => StatePrint.validate_transition now s
  | .finish => StateFinish.validate_transition s

/-- The state machine: the single active state name and the shared session
context. -/
structure Machine where
  active : StateName
  sess : Sess
deriving DecidableEq

/-- Modelled from the spec: `StateMachine.process` from `pibooth.states`
(not in the analysed source).  It runs the active state's per-tick action,
then its transition check; if a next name is produced it runs the old
state's exit hook, switches the active name and runs the new state's entry
hook.  `now` is the current time passed down to the polled timers. -/
def process (env : Env) (now : Nat) (events : List Event) (m : Machine) :
    Machine × List Action :=
  let r1 := doActions env events m.active m.sess
  match validateTransition env now events m.active r1.1 with
  | none => ({ m with sess := r1.1 }, r1.2)
  | some nxt =>
      let r2 := exitActions m.active r1.1
      let r3 := entryActions env now nxt r2.1
      ({ active := nxt, sess := r3.1 }, r1.2 ++ r2.2 ++ r3.2)

/-- Modelled from the spec: `StateMachine.set_state` sets the active name
and runs that state's entry hook, without running any prior exit hook. -/
def set_state (env : Env) (now : Nat) (name : StateName) (s : Sess) :
    Machine × List Action :=
  let r := entryActions env now name s
  ({ active := name, sess := r.1 }, r.2)

/-- A tick input of the dispatch loop: the current time and the raw event
batch returned by `pygame.event.get()` (oldest first; the loop reverses). -/
abbrev TickInput := Nat × List Event

/-- Iterate `process` over a list of tick inputs, dropping the traces. -/
def runMachine (env : Env) (inputs : List TickInput) (m : Machine) : Machine :=
  inputs.foldl (fun mc i => (process env i.1 i.2 mc).1) m

/-- The machine as `main_loop` starts it: `set_state('wait')` on the cold
session context. -/
def initialMachine (env : Env) : Machine :=
  (set_state env 0 .wait coldSess).1

/-- How a run of the modelled main loop ended: a quit event observed at the
top of a tick, an exception propagated out of `StateMachine.process`, or the
supplied tick inputs ran out with the loop still running. -/
inductive LoopExit
  | quitEvent
  | raised
  | fuelOut
deriving DecidableEq

/-- The fixed cleanup sequence of the `finally` block of
`PtbApplication.main_loop`: lights off, `GPIO.cleanup()`, `camera.quit()`,
`printer.quit()`, `pygame.quit()`. -/
def cleanupSeq : List Action :=
  [.ledPictureOff, .ledPrintOff, .gpioCleanup, .cameraQuit, .printerQuit, .pygameQuit]

/-- A per-tick processing function as the loop body sees it: given the time,
the (already reversed) events and the machine, either a new machine and the
trace of the tick, or a propagated exception together with the partial
trace.  `PtbApplication.main_loop` only calls it, never inspects it, so the
loop is stated over any such function; spec section 7 is the source of the
exception behaviour (hardware and filesystem failures propagate uncaught). -/
abbrev ProcessFun := Nat → List Event → Machine → Except Unit Machine × List Action

/-- The `while True` body of `PtbApplication.main_loop`: take all pending
events most recent first, break on a quit event before invoking the state
machine, handle fullscreen-toggle and resize, then run the state machine;
stop when a tick raises.  Returns how the loop ended, the machine at that
point and the trace accumulated inside the loop (without the `finally`
cleanup). -/
def mainLoopAux (p : ProcessFun) : List TickInput → Machine → List Action →
    LoopExit × Machine × List Action
  | [], m, tr => (.fuelOut, m, tr)
  | (now, raw) :: rest, m, tr =>
      let events := raw.reverse
      if (find_quit_event events).isSome then (.quitEvent, m, tr)
      else
        let tr2 := tr ++
          (if (find_fullscreen_event events).isSome then [Action.toggleFullscreen] else []) ++
          (match find_resize_event events with
           | some (.videoResize w h) => [Action.resizeWindow w h]
           | _ => [])
        let r := p now events m
        match r.1 with
        | .error _ => (.raised, m, tr2 ++ r.2)
        | .ok m' => mainLoopAux p rest m' (tr2 ++ r.2)

/-- `PtbApplication.main_loop`: start in `wait`, run the loop body on the
tick inputs, and on leaving the loop (quit event or propagated exception)
run the `finally` cleanup sequence exactly once; with the inputs exhausted
the real loop is still running, so no cleanup has happened yet. -/
def mainLoop (p : ProcessFun) (env : Env) (ticks : List TickInput) :
    LoopExit × Machine × List Action :=
  match mainLoopAux p ticks (set_state env 0 .wait coldSess).1 (set_state env 0 .wait coldSess).2 with
  | (.fuelOut, m, tr) => (.fuelOut, m, tr)
  | (ex, m, tr) => (ex, m, tr ++ cleanupSeq)

/-- The concrete per-tick processing function: `StateMachine.process` with
no failing peripheral. -/
def pureProcess (env : Env) : ProcessFun :=
  fun now events m =>
    let r := process env now events m
    (.ok r.1, r.2)

/-- Iterate `process` over tick inputs collecting the whole action trace. -/
def runMachineTrace (env : Env) (inputs : List TickInput) (m : Machine × List Action) :
    Machine × List Action :=
  inputs.foldl (fun mc i =>
    let r := process env i.1 i.2 mc.1
    (r.1, mc.2 ++ r.2)) m

/-- Concrete environment used for the concrete runs: configured for one
capture per cycle, no printer installed. -/
def demoEnv : Env :=
  { config := { directory := "sv", captures := 1, preview_countdown := true,
                preview_delay := 3, flash := false, footer_text1 := "a",
                footer_text2 := "b", bg_color := 0, text_color := 1 },
    printerInstalled := false }

/-- Concrete environment with the print hardware reported installed. -/
def demoEnvPrinter : Env :=
  { demoEnv with printerInstalled := true }

/-- Tick inputs driving two complete
wait → choose → capture(×1) → processing → finish → wait cycles: a
picture-request button press wakes `wait`, then time passes with empty
batches until each dwell timer expires. -/
def twoCycleInputs : List TickInput :=
  [(0, [.buttonDown 11]), (8, []), (9, []), (10, []), (11, []),
   (12, [.buttonDown 11]), (20, []), (21, []), (22, []), (23, [])]

/-- Recognizes a `camera.capture` call in a trace. -/
def isCameraCapture : Action → Bool
  | .cameraCapture _ => true
  | _ => false

/-- Recognizes a composed-picture save in a trace. -/
def isSavePicture : Action → Bool
  | .savePicture _ => true
  | _ => false

/-- Recognizes the cleanup calls that occur only in the `finally` block of
`main_loop` (`GPIO.cleanup`, `camera.quit`, `printer.quit`, `pygame.quit`);
the light switch-offs also appear inside state hooks, these four do not. -/
def isCleanupMarker : Action → Bool
  | .gpioCleanup => true
  | .cameraQuit => true
  | .printerQuit => true
  | .pygameQuit => true
  | _ => false

/-- Invariant carried along every run for the capture-count bound: the
capture list is empty outside the capture/processing stretch, strictly below
the requested count while `capture` is active (the pending tick may add one
more), and at most the requested count right after `capture` exits into
`processing`. -/
def capInv (mc : Machine) : Prop :=
  match mc.active with
  | .wait => mc.sess.captures = []
  | .finish => mc.sess.captures = []
  | .print => mc.sess.captures = []
  | .choose => mc.sess.captures = [] ∧
      ∃ v, mc.sess.max_captures = some v ∧ 1 ≤ v
  | .capture => ∃ v, mc.sess.max_captures = some v ∧ 1 ≤ v ∧
      mc.sess.captures.length < v
  | .processing => ∃ v, mc.sess.max_captures = some v ∧
      mc.sess.captures.length ≤ v

/-! Helper lemmas about the individual hooks. -/

theorem waitDo_sess (env : Env) (events : List Event) (s : Sess) :
    (StateWait.do_actions env events s).1 = s := by
  unfold StateWait.do_actions
  split <;> rfl

theorem chooseDo_captures (env : Env) (events : List Event) (s : Sess) :
    ((StateChoose.do_actions env events s).1).captures = s.captures := by
  unfold StateChoose.do_actions
  dsimp only
  split
  · rfl
  · split <;> rfl

theorem chooseDo_timer (env : Env) (events : List Event) (s : Sess) :
    ((StateChoose.do_actions env events s).1).chooseTimer = s.chooseTimer := by
  unfold StateChoose.do_actions
  dsimp only
  split
  · rfl
  · split <;> rfl

theorem chooseDo_max (env : Env) (events : List Event) (s : Sess) :
    ((StateChoose.do_actions env events s).1).max_captures = s.max_captures ∨
    ((StateChoose.do_actions env events s).1).max_captures = some 1 ∨
    ((StateChoose.do_actions env events s).1).max_captures = some 4 := by
  unfold StateChoose.do_actions
  dsimp only
  split
  · exact Or.inr (Or.inl rfl)
  · split
    · exact Or.inr (Or.inr rfl)
    · exact Or.inl rfl

theorem chooseDo_no_event (env : Env) (events : List Event) (s : Sess)
    (h : find_choice_event events = none) :
    (StateChoose.do_actions env events s).1 = s := by
  simp [StateChoose.do_actions, h]

theorem chooseDo_foldl_no_event (env : Env) (ticks : List (List Event)) (s : Sess)
    (hno : ∀ b ∈ ticks, find_choice_event b = none) :
    ticks.foldl (fun a b => (StateChoose.do_actions env b a).1) s = s := by
  induction ticks generalizing s with
  | nil => rfl
  | cons b bs ih =>
      rw [List.foldl_cons, chooseDo_no_event env b s (hno b (by simp))]
      exact ih s fun x hx => hno x (by simp [hx])

theorem captureDo_captures (env : Env) (events : List Event) (s : Sess) :
    ((StateCapture.do_actions env events s).1).captures =
      s.captures ++ [optJoin s.dirname ("ptb" ++ pad3 s.captures.length ++ ".jpg")] :=
  rfl

theorem captureDo_max (env : Env) (events : List Event) (s : Sess) :
    ((StateCapture.do_actions env events s).1).max_captures = s.max_captures :=
  rfl

theorem printDo_sess (env : Env) (events : List Event) (s : Sess) :
    (StatePrint.do_actions env events s).1 = s ∨
    (StatePrint.do_actions env events s).1 = { s with printed := true } := by
  unfold StatePrint.do_actions
  split
  · exact Or.inr rfl
  · exact Or.inl rfl

theorem printDo_no_event (env : Env) (events : List Event) (s : Sess)
    (h : find_print_event events = none) :
    (StatePrint.do_actions env events s).1 = s := by
  unfold StatePrint.do_actions
  rw [h]

theorem printDo_foldl_no_event (env : Env) (ticks : List (List Event)) (s : Sess)
    (hno : ∀ b ∈ ticks, find_print_event b = none) :
    ticks.foldl (fun a b => (StatePrint.do_actions env b a).1) s = s := by
  induction ticks generalizing s with
  | nil => rfl
  | cons b bs ih =>
      rw [List.foldl_cons, printDo_no_event env b s (hno b (by simp))]
      exact ih s fun x hx => hno x (by simp [hx])

theorem printDo_printed_true (env : Env) (events : List Event) (s : Sess)
    (h : s.printed = true) :
    ((StatePrint.do_actions env events s).1).printed = true := by
  rcases printDo_sess env events s with h' | h' <;> rw [h']
  exact h

/-- C10: every BUTTON_DOWN event on the picture button that
`find_picture_event` returns also satisfies `find_choice_event`'s predicate,
so the same physical button that requests a picture in the wait state
toggles the count in the choose state. -/
theorem C10_picture_button_matches_choice (events : List Event) (pin : Nat)
    (h : find_picture_event events = some (.buttonDown pin)) :
    picturePred (.buttonDown pin) = true ∧ choicePred (.buttonDown pin) = true := by
  have hp : picturePred (.buttonDown pin) = true := List.find?_some h
  refine ⟨hp, ?_⟩
  have hpin : pin = buttonPicturePin := by simpa [picturePred] using hp
  simp [choicePred, hpin]

/-- Witness for C10 at the concrete batch `[buttonDown 11]`. -/
theorem C10_picture_button_matches_choice_witness :
    find_picture_event [Event.buttonDown 11] = some (Event.buttonDown 11) ∧
    picturePred (Event.buttonDown 11) = true ∧
    choicePred (Event.buttonDown 11) = true :=
  ⟨by decide, C10_picture_button_matches_choice [Event.buttonDown 11] 11 (by decide)⟩

/-- C2: on any choose tick whose batch contains a choice-change event the
requested count flips between 1 and 4 (from 1 it becomes 4 and from 4 it
becomes 1), and the displayed count is refreshed every tick. -/
theorem C2_choose_toggle (env : Env) (events : List Event) (s : Sess) :
    ((find_choice_event events).isSome = true →
      (s.max_captures = some 1 →
        ((StateChoose.do_actions env events s).1).max_captures = some 4) ∧
      (s.max_captures = some 4 →
        ((StateChoose.do_actions env events s).1).max_captures = some 1)) ∧
    Action.showChoice ((StateChoose.do_actions env events s).1).max_captures ∈
      (StateChoose.do_actions env events s).2 := by
  constructor
  · intro hev
    constructor
    · intro h1
      simp [StateChoose.do_actions, hev, h1]
    · intro h4
      simp [StateChoose.do_actions, hev, h4]
  · unfold StateChoose.do_actions
    dsimp only
    split
    · simp
    · split <;> simp

/-- Witness for C2: from a requested count of 1, a picture-button press
makes it 4, and the displayed count is refreshed. -/
theorem C2_choose_toggle_witness :
    (find_choice_event [Event.buttonDown 11]).isSome = true ∧
    ((StateChoose.do_actions demoEnv [Event.buttonDown 11]
        { coldSess with max_captures := some 1 }).1).max_captures = some 4 ∧
    Action.showChoice ((StateChoose.do_actions demoEnv [Event.buttonDown 11]
        { coldSess with max_captures := some 1 }).1).max_captures ∈
      (StateChoose.do_actions demoEnv [Event.buttonDown 11]
        { coldSess with max_captures := some 1 }).2 :=
  ⟨by decide,
   ((C2_choose_toggle demoEnv [Event.buttonDown 11]
      { coldSess with max_captures := some 1 }).1 (by decide)).1 rfl,
   (C2_choose_toggle demoEnv [Event.buttonDown 11]
      { coldSess with max_captures := some 1 }).2⟩

/-- C9: the printed flag is initialised by `StatePrint.__init__`, the entry
hook never resets it, and once it is set every later activation's first
transition check returns finish immediately, for any time and any events. -/
theorem C9_printed_flag_sticky (env : Env) (tE tV : Nat) (s : Sess) (events : List Event)
    (h : s.printed = true) :
    coldSess.printed = false ∧
    ((StatePrint.entry_actions env tE s).1).printed = s.printed ∧
    StatePrint.validate_transition tV
      ((StatePrint.do_actions env events ((StatePrint.entry_actions env tE s).1)).1) =
      some .finish := by
  refine ⟨rfl, rfl, ?_⟩
  have hp : ((StatePrint.do_actions env events
      ((StatePrint.entry_actions env tE s).1)).1).printed = true :=
    printDo_printed_true _ _ _ (by simpa [StatePrint.entry_actions] using h)
  simp [StatePrint.validate_transition, hp]

/-- Witness for C9: with the flag already set, an activation with no events
finishes at once. -/
theorem C9_printed_flag_sticky_witness :
    ({ coldSess with printed := true } : Sess).printed = true ∧
    StatePrint.validate_transition 0
      ((StatePrint.do_actions demoEnv []
        ((StatePrint.entry_actions demoEnv 0 { coldSess with printed := true }).1)).1) =
      some .finish :=
  ⟨rfl, (C9_printed_flag_sticky demoEnv 0 0 { coldSess with printed := true } [] rfl).2.2⟩

/-- C8: entry to choose reloads `max_captures` from configuration and starts
the 8-unit timer; with no choice-change events while active the transition
check returns capture exactly at timer expiry and `max_captures` still holds
the configured value. -/
theorem C8_choose_timeout (env : Env) (t0 t : Nat) (s : Sess) (ticks : List (List Event))
    (htmr : s.chooseTimer.timeout = 8)
    (hno : ∀ b ∈ ticks, find_choice_event b = none) :
    ((StateChoose.entry_actions env t0 s).1).max_captures = some env.config.captures ∧
    (ticks.foldl (fun a b => (StateChoose.do_actions env b a).1)
        ((StateChoose.entry_actions env t0 s).1)).max_captures =
      some env.config.captures ∧
    (StateChoose.validate_transition t
        (ticks.foldl (fun a b => (StateChoose.do_actions env b a).1)
          ((StateChoose.entry_actions env t0 s).1)) = some .capture ↔ 8 ≤ t - t0) := by
  rw [chooseDo_foldl_no_event env ticks ((StateChoose.entry_actions env t0 s).1) hno]
  refine ⟨rfl, rfl, ?_⟩
  by_cases hle : 8 ≤ t - t0 <;>
    simp [StateChoose.validate_transition, StateChoose.entry_actions,
          PoolingTimer.is_timeout, PoolingTimer.start, htmr, hle]

/-- Witness for C8: two quiet ticks, expiry exactly at 8 units. -/
theorem C8_choose_timeout_witness :
    coldSess.chooseTimer.timeout = 8 ∧
    (∀ b ∈ ([[], []] : List (List Event)), find_choice_event b = none) ∧
    ((([[], []] : List (List Event)).foldl
        (fun a b => (StateChoose.do_actions demoEnv b a).1)
        ((StateChoose.entry_actions demoEnv 0 coldSess).1)).max_captures = some 1 ∧
     (StateChoose.validate_transition 8
        (([[], []] : List (List Event)).foldl
          (fun a b => (StateChoose.do_actions demoEnv b a).1)
          ((StateChoose.entry_actions demoEnv 0 coldSess).1)) = some .capture ↔ 8 ≤ 8 - 0)) :=
  ⟨rfl, by decide,
   (C8_choose_timeout demoEnv 0 8 coldSess [[], []] rfl (by decide)).2.1,
   (C8_choose_timeout demoEnv 0 8 coldSess [[], []] rfl (by decide)).2.2⟩

/-- C6: each capture tick takes exactly one picture, into the cycle
directory under the zero-padded sequential name given by the current
captures length, appends that path to captures, and afterwards the
transition check returns processing exactly when the captures count has
reached `max_captures`. -/
theorem C6_capture_tick (env : Env) (events : List Event) (s : Sess) (m : Nat)
    (hm : s.max_captures = some m) :
    ((StateCapture.do_actions env events s).1).captures =
      s.captures ++ [optJoin s.dirname ("ptb" ++ pad3 s.captures.length ++ ".jpg")] ∧
    ((StateCapture.do_actions env events s).2).countP isCameraCapture = 1 ∧
    Action.cameraCapture (optJoin s.dirname ("ptb" ++ pad3 s.captures.length ++ ".jpg")) ∈
      (StateCapture.do_actions env events s).2 ∧
    (StateCapture.validate_transition ((StateCapture.do_actions env events s).1) =
        some .processing ↔ m ≤ s.captures.length + 1) := by
  refine ⟨rfl, ?_, ?_, ?_⟩
  · unfold StateCapture.do_actions
    dsimp only
    split <;> split <;> simp [isCameraCapture]
  · unfold StateCapture.do_actions
    dsimp only
    split <;> split <;> simp
  · have h1 : ((StateCapture.do_actions env events s).1).max_captures = some m := by
      rw [captureDo_max]; exact hm
    have h2 : ((StateCapture.do_actions env events s).1).captures.length =
        s.captures.length + 1 := by
      rw [captureDo_captures]; simp
    unfold StateCapture.validate_transition
    rw [h1, h2]
    by_cases hle : m ≤ s.captures.length + 1 <;> simp [hle]

/-- Witness for C6 on a session about to take its first shot. -/
theorem C6_capture_tick_witness :
    ({ coldSess with max_captures := some 1, dirname := some "sv/0" } : Sess).max_captures =
      some 1 ∧
    ((StateCapture.do_actions demoEnv []
        { coldSess with max_captures := some 1, dirname := some "sv/0" }).1).captures =
      ["sv/0/ptb000.jpg"] ∧
    (StateCapture.validate_transition
        ((StateCapture.do_actions demoEnv []
          { coldSess with max_captures := some 1, dirname := some "sv/0" }).1) =
        some .processing ↔ 1 ≤ 0 + 1) :=
  ⟨rfl,
   by
    have h := (C6_capture_tick demoEnv []
      { coldSess with max_captures := some 1, dirname := some "sv/0" } 1 rfl).1
    simpa using h,
   by
    have h := (C6_capture_tick demoEnv []
      { coldSess with max_captures := some 1, dirname := some "sv/0" } 1 rfl).2.2.2
    simpa using h⟩

/-- C1 (amended): for an activation of the print state entered with the
printed flag still false: a tick whose batch contains a print-request event
sets the flag and the next transition check returns finish; and if no
print-request event ever arrives during the activation, the transition check
returns finish exactly upon expiry of the 5-unit timer started at entry, and
not before. -/
theorem C1_print_state_flow (env : Env) (t0 t t' : Nat) (s : Sess)
    (events : List Event) (ticks : List (List Event))
    (hpf : s.previous_picture_file.isSome = true)
    (hp0 : s.printed = false)
    (htmr : s.printTimer.timeout = 5)
    (hno : ∀ b ∈ ticks, find_print_event b = none)
    (hev : (find_print_event events).isSome = true) :
    (((StatePrint.do_actions env events
        ((StatePrint.entry_actions env t0 s).1)).1).printed = true ∧
     StatePrint.validate_transition t'
       ((StatePrint.do_actions env events
         ((StatePrint.entry_actions env t0 s).1)).1) = some .finish) ∧
    (StatePrint.validate_transition t
        (ticks.foldl (fun a b => (StatePrint.do_actions env b a).1)
          ((StatePrint.entry_actions env t0 s).1)) = some .finish ↔ 5 ≤ t - t0) := by
  obtain ⟨e, he⟩ := Option.isSome_iff_exists.mp hev
  obtain ⟨f, hf⟩ := Option.isSome_iff_exists.mp hpf
  constructor
  · have hdo : (StatePrint.do_actions env events
        ((StatePrint.entry_actions env t0 s).1)).1 =
        { (StatePrint.entry_actions env t0 s).1 with printed := true } := by
      unfold StatePrint.do_actions
      have hf1 : ((StatePrint.entry_actions env t0 s).1).previous_picture_file = some f := hf
      rw [he, hf1]
      simp [hf1]
    rw [hdo]
    exact ⟨rfl, by simp [StatePrint.validate_transition]⟩
  · rw [printDo_foldl_no_event env ticks ((StatePrint.entry_actions env t0 s).1) hno]
    by_cases hle : 5 ≤ t - t0 <;>
      simp [StatePrint.validate_transition, StatePrint.entry_actions,
            PoolingTimer.is_timeout, PoolingTimer.start, htmr, hp0, hle]

/-- Witness for C1 (amended): fresh flag, print request on the first tick,
and a quiet activation finishing exactly at 5 units. -/
theorem C1_print_state_flow_witness :
    ({ coldSess with previous_picture_file := some "sv/prev.jpg" } : Sess).previous_picture_file.isSome =
      true ∧
    (((StatePrint.do_actions demoEnvPrinter [Event.buttonDown 13]
        ((StatePrint.entry_actions demoEnvPrinter 0
          { coldSess with previous_picture_file := some "sv/prev.jpg" }).1)).1).printed = true ∧
     StatePrint.validate_transition 1
       ((StatePrint.do_actions demoEnvPrinter [Event.buttonDown 13]
         ((StatePrint.entry_actions demoEnvPrinter 0
           { coldSess with previous_picture_file := some "sv/prev.jpg" }).1)).1) =
       some .finish) ∧
    (StatePrint.validate_transition 5
        (([[], []] : List (List Event)).foldl
          (fun a b => (StatePrint.do_actions demoEnvPrinter b a).1)
          ((StatePrint.entry_actions demoEnvPrinter 0
            { coldSess with previous_picture_file := some "sv/prev.jpg" }).1)) =
        some .finish ↔ 5 ≤ 5 - 0) :=
  ⟨rfl,
   (C1_print_state_flow demoEnvPrinter 0 5 1
      { coldSess with previous_picture_file := some "sv/prev.jpg" }
      [Event.buttonDown 13] [[], []] rfl rfl rfl (by decide) (by decide)).1,
   (C1_print_state_flow demoEnvPrinter 0 5 1
      { coldSess with previous_picture_file := some "sv/prev.jpg" }
      [Event.buttonDown 13] [[], []] rfl rfl rfl (by decide) (by decide)).2⟩

/-- Counterexample to C1 as stated: after an earlier activation performed a
print, a later activation of the print state receives no print-request event
at all, yet its transition check returns finish with zero time units elapsed
since entry, before the 5-unit timer could expire. -/
theorem C1_counterexample :
    (∀ b ∈ ([] : List (List Event)), find_print_event b = none) ∧
    StatePrint.validate_transition 10
      ((StatePrint.entry_actions demoEnvPrinter 10
        ((StatePrint.do_actions demoEnvPrinter [Event.buttonDown 13]
          ((StatePrint.entry_actions demoEnvPrinter 0
            { coldSess with previous_picture_file := some "sv/prev.jpg" }).1)).1)).1) =
      some .finish ∧
    ¬ (5 ≤ 10 - 10) := by
  refine ⟨by simp, by decide, by decide⟩

theorem process_active_cases (env : Env) (now : Nat) (events : List Event) (mc : Machine) :
    ((process env now events mc).1).active = mc.active ∨
    ∃ nxt, validateTransition env now events mc.active
        (doActions env events mc.active mc.sess).1 = some nxt ∧
      ((process env now events mc).1).active = nxt := by
  unfold process
  dsimp only
  split
  · exact Or.inl rfl
  · rename_i nxt heq
    exact Or.inr ⟨nxt, heq, rfl⟩

theorem validate_ne_print (env : Env) (now : Nat) (events : List Event)
    (a : StateName) (s : Sess)
    (hni : env.printerInstalled = false) (ha : a ≠ .print) :
    validateTransition env now events a s ≠ some .print := by
  cases a
  case wait =>
      simp only [validateTransition, StateWait.validate_transition]
      split <;> simp
  case choose =>
      simp only [validateTransition, StateChoose.validate_transition]
      split <;> simp
  case capture =>
      simp only [validateTransition, StateCapture.validate_transition]
      split
      · split <;> simp
      · simp
  case processing =>
      simp only [validateTransition, StateProcessing.validate_transition]
      simp [hni]
  case print => exact absurd rfl ha
  case finish =>
      simp only [validateTransition, StateFinish.validate_transition]
      simp

theorem process_ne_print (env : Env) (now : Nat) (events : List Event) (mc : Machine)
    (hni : env.printerInstalled = false) (h : mc.active ≠ .print) :
    ((process env now events mc).1).active ≠ .print := by
  rcases process_active_cases env now events mc with hA | ⟨nxt, heq, hact⟩
  · rw [hA]; exact h
  · rw [hact]
    intro hcon
    subst hcon
    exact validate_ne_print env now events mc.active _ hni h heq

theorem runMachine_ne_print (env : Env) (inputs : List TickInput) (mc : Machine)
    (hni : env.printerInstalled = false) (h : mc.active ≠ .print) :
    (runMachine env inputs mc).active ≠ .print := by
  induction inputs generalizing mc with
  | nil => exact h
  | cons i is ih =>
      rw [runMachine, List.foldl_cons]
      exact ih _ (process_ne_print env i.1 i.2 mc hni h)

/-- C4: the processing transition check returns print exactly when the print
hardware reports installed and finish exactly when it does not; and with the
printer not installed the print state is never the active state along any
run from startup. -/
theorem C4_processing_branch (env : Env) (inputs : List TickInput)
    (hni : env.printerInstalled = false) :
    (∀ (env' : Env) (s' : Sess),
      (StateProcessing.validate_transition env' s' = some .print ↔
        env'.printerInstalled = true) ∧
      (StateProcessing.validate_transition env' s' = some .finish ↔
        env'.printerInstalled = false)) ∧
    (runMachine env inputs (initialMachine env)).active ≠ .print := by
  constructor
  · intro env' s'
    unfold StateProcessing.validate_transition
    cases h : env'.printerInstalled <;> simp [h]
  · exact runMachine_ne_print env inputs (initialMachine env) hni (by
      simp [initialMachine, set_state])

/-- Witness for C4 on a run long enough to complete a whole cycle with the
printer not installed. -/
theorem C4_processing_branch_witness :
    demoEnv.printerInstalled = false ∧
    (runMachine demoEnv twoCycleInputs (initialMachine demoEnv)).active ≠ .print :=
  ⟨rfl, (C4_processing_branch demoEnv twoCycleInputs rfl).2⟩

theorem capInv_init (env : Env) : capInv (initialMachine env) := rfl

theorem process_of_validate_none (env : Env) (now : Nat) (events : List Event) (m : Machine)
    (h : validateTransition env now events m.active (doActions env events m.active m.sess).1 =
      none) :
    (process env now events m).1 = { m with sess := (doActions env events m.active m.sess).1 } := by
  unfold process
  dsimp only
  rw [h]

theorem process_of_validate_some (env : Env) (now : Nat) (events : List Event) (m : Machine)
    (nxt : StateName)
    (h : validateTransition env now events m.active (doActions env events m.active m.sess).1 =
      some nxt) :
    (process env now events m).1 =
      { active := nxt,
        sess := (entryActions env now nxt
          (exitActions m.active (doActions env events m.active m.sess).1).1).1 } := by
  unfold process
  dsimp only
  rw [h]

theorem capInv_step (env : Env) (now : Nat) (events : List Event) (mc : Machine)
    (henv : 1 ≤ env.config.captures) (h : capInv mc) :
    capInv (process env now events mc).1 := by
  rcases mc with ⟨a, s⟩
  cases a
  case wait =>
      simp only [capInv] at h
      by_cases hpe : (find_picture_event events).isSome = true
      · rw [process_of_validate_some env now events ⟨.wait, s⟩ .choose (by
          simp [validateTransition, doActions, StateWait.validate_transition, hpe])]
        simp only [capInv, doActions, exitActions, entryActions, StateWait.exit_actions,
          StateChoose.entry_actions, waitDo_sess]
        exact ⟨h, env.config.captures, rfl, henv⟩
      · rw [process_of_validate_none env now events ⟨.wait, s⟩ (by
          simp [validateTransition, doActions, StateWait.validate_transition, hpe])]
        simpa [capInv, doActions, waitDo_sess] using h
  case choose =>
      simp only [capInv] at h
      obtain ⟨hc, v, hv, h1v⟩ := h
      have hmx := chooseDo_max env events s
      have hk : ((StateChoose.do_actions env events s).1).captures = [] := by
        rw [chooseDo_captures]; exact hc
      have hge : ∃ w, ((StateChoose.do_actions env events s).1).max_captures = some w ∧
          1 ≤ w := by
        rcases hmx with hm | hm | hm
        · exact ⟨v, by rw [hm, hv], h1v⟩
        · exact ⟨1, hm, le_refl 1⟩
        · exact ⟨4, hm, by norm_num⟩
      by_cases hto : ((StateChoose.do_actions env events s).1).chooseTimer.is_timeout now = true
      · rw [process_of_validate_some env now events ⟨.choose, s⟩ .capture (by
          simp [validateTransition, doActions, StateChoose.validate_transition, hto])]
        obtain ⟨w, hw, h1w⟩ := hge
        simp only [capInv, doActions, exitActions, entryActions, StateCapture.entry_actions]
        exact ⟨w, hw, h1w, by simp [hk]; omega⟩
      · rw [process_of_validate_none env now events ⟨.choose, s⟩ (by
          simp [validateTransition, doActions, StateChoose.validate_transition, hto])]
        simp only [capInv, doActions]
        exact ⟨hk, hge⟩
  case capture =>
      simp only [capInv] at h
      obtain ⟨v, hv, h1v, hlt⟩ := h
      have hmax : ((StateCapture.do_actions env events s).1).max_captures = some v := by
        rw [captureDo_max]; exact hv
      have hlen : ((StateCapture.do_actions env events s).1).captures.length =
          s.captures.length + 1 := by
        rw [captureDo_captures]; simp
      by_cases hle : v ≤ s.captures.length + 1
      · rw [process_of_validate_some env now events ⟨.capture, s⟩ .processing (by
          simp only [validateTransition, doActions, StateCapture.validate_transition]
          rw [hmax]
          simp [hlen, hle])]
        simp only [capInv, doActions, exitActions, entryActions, StateCapture.exit_actions,
          StateProcessing.entry_actions]
        refine ⟨v, hmax, ?_⟩
        simp only [hlen]
        omega
      · rw [process_of_validate_none env now events ⟨.capture, s⟩ (by
          simp only [validateTransition, doActions, StateCapture.validate_transition]
          rw [hmax]
          simp [hlen, hle])]
        simp only [capInv, doActions]
        refine ⟨v, hmax, h1v, ?_⟩
        rw [hlen]
        omega
  case processing =>
      simp only [capInv] at h
      cases hpr : env.printerInstalled
      · rw [process_of_validate_some env now events ⟨.processing, s⟩ .finish (by
          simp [validateTransition, doActions, StateProcessing.validate_transition, hpr])]
        simp [capInv, doActions, exitActions, entryActions, StateProcessing.exit_actions,
          StateFinish.entry_actions]
      · rw [process_of_validate_some env now events ⟨.processing, s⟩ .print (by
          simp [validateTransition, doActions, StateProcessing.validate_transition, hpr])]
        simp [capInv, doActions, exitActions, entryActions, StateProcessing.exit_actions,
          StatePrint.entry_actions]
  case print =>
      simp only [capInv] at h
      have hc : ((StatePrint.do_actions env events s).1).captures = [] := by
        rcases printDo_sess env events s with h' | h' <;> rw [h'] <;> exact h
      by_cases hcd : (((StatePrint.do_actions env events s).1).printTimer.is_timeout now ||
          ((StatePrint.do_actions env events s).1).printed) = true
      · rw [process_of_validate_some env now events ⟨.print, s⟩ .finish (by
          simp only [validateTransition, doActions, StatePrint.validate_transition]
          simp [hcd])]
        simpa [capInv, doActions, exitActions, entryActions, StateFinish.entry_actions] using hc
      · rw [process_of_validate_none env now events ⟨.print, s⟩ (by
          simp only [validateTransition, doActions, StatePrint.validate_transition]
          simp [hcd])]
        simpa [capInv, doActions] using hc
  case finish =>
      simp only [capInv] at h
      rw [process_of_validate_some env now events ⟨.finish, s⟩ .wait (by
        simp [validateTransition, doActions, StateFinish.validate_transition])]
      simpa [capInv, doActions, exitActions, entryActions, StateWait.entry_actions] using h

theorem capInv_run (env : Env) (inputs : List TickInput) (mc : Machine)
    (henv : 1 ≤ env.config.captures) (h : capInv mc) :
    capInv (runMachine env inputs mc) := by
  induction inputs generalizing mc with
  | nil => exact h
  | cons i is ih =>
      rw [runMachine, List.foldl_cons]
      exact ih _ (capInv_step env i.1 i.2 mc henv h)

/-- C3: along any run from startup with a positive configured capture count,
whenever the capture state is active or freshly exited into processing the
number of captured paths is at most `max_captures`; moreover each capture
tick appends exactly one path, the capture transition check fires exactly
when the count has reached `max_captures`, and `captures` is emptied by the
processing exit hook. -/
theorem C3_captures_invariant (env : Env) (inputs : List TickInput) (s : Sess)
    (events : List Event) (m : Nat)
    (henv : 1 ≤ env.config.captures) :
    (((runMachine env inputs (initialMachine env)).active = .capture ∨
        (runMachine env inputs (initialMachine env)).active = .processing) →
      ∃ v, (runMachine env inputs (initialMachine env)).sess.max_captures = some v ∧
        (runMachine env inputs (initialMachine env)).sess.captures.length ≤ v) ∧
    ((StateCapture.do_actions env events s).1).captures.length = s.captures.length + 1 ∧
    (s.max_captures = some m →
      (StateCapture.validate_transition s = some .processing ↔ m ≤ s.captures.length)) ∧
    ((StateProcessing.exit_actions s).1).captures = [] := by
  refine ⟨?_, by rw [captureDo_captures]; simp, ?_, rfl⟩
  · intro hact
    have hinv := capInv_run env inputs (initialMachine env) henv (capInv_init env)
    rcases hact with ha | ha
    · unfold capInv at hinv
      rw [ha] at hinv
      obtain ⟨v, hv, _, hlt⟩ := hinv
      exact ⟨v, hv, le_of_lt hlt⟩
    · unfold capInv at hinv
      rw [ha] at hinv
      exact hinv
  · intro hm
    unfold StateCapture.validate_transition
    rw [hm]
    by_cases hle : m ≤ s.captures.length <;> simp [hle]

/-- Witness for C3: after three ticks the machine sits in processing with
one capture and `max_captures = 1`, and the capture check at the bound. -/
theorem C3_captures_invariant_witness :
    1 ≤ demoEnv.config.captures ∧
    ((runMachine demoEnv (twoCycleInputs.take 3) (initialMachine demoEnv)).active = .capture ∨
      (runMachine demoEnv (twoCycleInputs.take 3) (initialMachine demoEnv)).active = .processing) ∧
    (∃ v, (runMachine demoEnv (twoCycleInputs.take 3) (initialMachine demoEnv)).sess.max_captures =
        some v ∧
      (runMachine demoEnv (twoCycleInputs.take 3) (initialMachine demoEnv)).sess.captures.length ≤ v) ∧
    ({ coldSess with max_captures := some 1 } : Sess).max_captures = some 1 ∧
    (StateCapture.validate_transition { coldSess with max_captures := some 1 } =
        some .processing ↔ 1 ≤ ({ coldSess with max_captures := some 1 } : Sess).captures.length) :=
  ⟨by decide, Or.inr (by decide),
   (C3_captures_invariant demoEnv (twoCycleInputs.take 3)
      { coldSess with max_captures := some 1 } [] 1 (by decide)).1 (Or.inr (by decide)),
   rfl,
   (C3_captures_invariant demoEnv (twoCycleInputs.take 3)
      { coldSess with max_captures := some 1 } [] 1 (by decide)).2.2.1 rfl⟩

/-- C5: the capture entry hook resets both composed-image fields, the
processing entry hook populates both, and the concrete double cycle
wait→choose→capture(×1)→processing→finish→wait from the cold context ends
with `captures` empty and the composed-image fields holding exactly the
second cycle's values, distinct from the first cycle's; the composed picture
is saved exactly once per cycle. -/
theorem C5_full_cycle :
    (∀ (env : Env) (now : Nat) (s : Sess),
      ((StateCapture.entry_actions env now s).1).previous_picture = none ∧
      ((StateCapture.entry_actions env now s).1).previous_picture_file = none) ∧
    (∀ (env : Env) (now : Nat) (s : Sess),
      ((StateProcessing.entry_actions env now s).1).previous_picture.isSome = true ∧
      ((StateProcessing.entry_actions env now s).1).previous_picture_file.isSome = true) ∧
    (runMachine demoEnv twoCycleInputs (initialMachine demoEnv)).sess.captures = [] ∧
    (runMachine demoEnv twoCycleInputs (initialMachine demoEnv)).sess.previous_picture_file =
      some "sv/20/21_ptb.jpg" ∧
    (runMachine demoEnv (twoCycleInputs.take 5)
        (initialMachine demoEnv)).sess.previous_picture_file = some "sv/8/9_ptb.jpg" ∧
    ("sv/20/21_ptb.jpg" : String) ≠ "sv/8/9_ptb.jpg" ∧
    (runMachine demoEnv twoCycleInputs (initialMachine demoEnv)).sess.previous_picture =
      some (generate_picture_from_files ["sv/20/ptb000.jpg"] ["a", "b"] 0 1) ∧
    ((runMachineTrace demoEnv twoCycleInputs
        ((initialMachine demoEnv), [])).2).countP isSavePicture = 2 ∧
    ((runMachineTrace demoEnv (twoCycleInputs.take 5)
        ((initialMachine demoEnv), [])).2).countP isSavePicture = 1 := by
  exact ⟨fun env now s => ⟨rfl, rfl⟩, fun env now s => ⟨rfl, rfl⟩,
    by decide, by decide, by decide, by decide, by decide, by decide, by decide⟩

theorem mainLoopAux_quit_head (p : ProcessFun) (now : Nat) (raw : List Event)
    (rest : List TickInput) (m : Machine) (tr : List Action)
    (hquit : (find_quit_event raw.reverse).isSome = true) :
    mainLoopAux p ((now, raw) :: rest) m tr = (.quitEvent, m, tr) := by
  simp [mainLoopAux, hquit]

theorem mainLoopAux_append (p : ProcessFun) (xs ys : List TickInput)
    (m : Machine) (tr : List Action) :
    mainLoopAux p (xs ++ ys) m tr =
      match mainLoopAux p xs m tr with
      | (.fuelOut, m', tr') => mainLoopAux p ys m' tr'
      | r => r := by
  induction xs generalizing m tr with
  | nil => rfl
  | cons t ts ih =>
      rcases t with ⟨now, raw⟩
      by_cases hq : (find_quit_event raw.reverse).isSome = true
      · simp [mainLoopAux, hq]
      · simp only [List.cons_append, mainLoopAux, hq, if_false]
        cases hr : (p now raw.reverse m).1 with
        | error e => simp [hr]
        | ok m' => simp [hr, ih]

theorem mainLoopAux_no_quit (p : ProcessFun) :
    ∀ (pre : List TickInput) (m : Machine) (tr : List Action),
      (∀ t ∈ pre, find_quit_event t.2.reverse = none) →
      (mainLoopAux p pre m tr).1 ≠ .quitEvent := by
  intro pre
  induction pre with
  | nil => intro m tr _; simp [mainLoopAux]
  | cons t ts ih =>
      intro m tr hpre
      rcases t with ⟨n2, r2⟩
      have hq : find_quit_event r2.reverse = none := hpre (n2, r2) (by simp)
      simp only [mainLoopAux, hq, Option.isSome_none, Bool.false_eq_true, if_false]
      cases hr : (p n2 r2.reverse m).1 with
      | error e => simp [hr]
      | ok m' =>
          simp only [hr]
          exact ih m' _ fun t ht => hpre t (by simp [ht])

theorem mainLoopAux_markers (p : ProcessFun)
    (hp : ∀ (now : Nat) (evs : List Event) (m : Machine),
      ((p now evs m).2).countP isCleanupMarker = 0) :
    ∀ (ticks : List TickInput) (m : Machine) (tr : List Action),
      (((mainLoopAux p ticks m tr).2.2)).countP isCleanupMarker =
        tr.countP isCleanupMarker := by
  intro ticks
  induction ticks with
  | nil => intro m tr; rfl
  | cons t ts ih =>
      intro m tr
      rcases t with ⟨now, raw⟩
      by_cases hq : (find_quit_event raw.reverse).isSome = true
      · simp [mainLoopAux, hq]
      · have hfs : (if (find_fullscreen_event raw.reverse).isSome then
            [Action.toggleFullscreen] else []).countP isCleanupMarker = 0 := by
          split <;> simp [isCleanupMarker]
        have hrs : ((match find_resize_event raw.reverse with
            | some (.videoResize w h) => [Action.resizeWindow w h]
            | _ => []) : List Action).countP isCleanupMarker = 0 := by
          split <;> simp [isCleanupMarker]
        simp only [mainLoopAux, hq, if_false]
        cases hr : (p now raw.reverse m).1 with
        | error e =>
            simp [hr, List.countP_append, hfs, hrs, hp]
        | ok m' =>
            simp [hr, ih, List.countP_append, hfs, hrs, hp]

/-- C7: with a quit event first observed at the top of some tick, the main
loop halts there before invoking the state machine for that tick (when every
earlier tick processed normally, the final machine is exactly the fold over
the earlier ticks), the loop ends by the quit exit or earlier by a
propagated exception, and the fixed cleanup sequence runs exactly once, as
the final suffix of the trace. -/
theorem C7_main_loop_cleanup (p : ProcessFun) (env : Env)
    (pre rest : List TickInput) (now : Nat) (raw : List Event)
    (hpre : ∀ t ∈ pre, find_quit_event t.2.reverse = none)
    (hquit : (find_quit_event raw.reverse).isSome = true)
    (hp : ∀ (now' : Nat) (evs : List Event) (m : Machine),
      ((p now' evs m).2).countP isCleanupMarker = 0) :
    ((mainLoop p env (pre ++ (now, raw) :: rest)).1 = .quitEvent ∨
      (mainLoop p env (pre ++ (now, raw) :: rest)).1 = .raised) ∧
    (∀ m1 tr1,
      mainLoopAux p pre (initialMachine env) [Action.showIntro none] = (.fuelOut, m1, tr1) →
      mainLoop p env (pre ++ (now, raw) :: rest) = (.quitEvent, m1, tr1 ++ cleanupSeq)) ∧
    ((mainLoop p env (pre ++ (now, raw) :: rest)).2.2).countP isCleanupMarker = 4 ∧
    cleanupSeq <:+ (mainLoop p env (pre ++ (now, raw) :: rest)).2.2 := by
  have hml : mainLoop p env (pre ++ (now, raw) :: rest) =
      (match mainLoopAux p (pre ++ (now, raw) :: rest) (initialMachine env)
          [Action.showIntro none] with
        | (.fuelOut, m, tr) => (.fuelOut, m, tr)
        | (ex, m, tr) => (ex, m, tr ++ cleanupSeq)) := rfl
  have happ := mainLoopAux_append p pre ((now, raw) :: rest) (initialMachine env)
    [Action.showIntro none]
  have hmk := mainLoopAux_markers p hp pre (initialMachine env) [Action.showIntro none]
  rcases hA : mainLoopAux p pre (initialMachine env) [Action.showIntro none] with ⟨ex, m1, tr1⟩
  rw [hA] at happ hmk
  cases ex
  case quitEvent =>
      exact absurd (by rw [hA]) (mainLoopAux_no_quit p pre (initialMachine env)
        [Action.showIntro none] hpre)
  case raised =>
      have h0 : tr1.countP isCleanupMarker = 0 := hmk.trans rfl
      have h4 : cleanupSeq.countP isCleanupMarker = 4 := rfl
      have hfull : mainLoopAux p (pre ++ (now, raw) :: rest) (initialMachine env)
          [Action.showIntro none] = (.raised, m1, tr1) := happ
      rw [hml, hfull]
      refine ⟨Or.inr rfl, ?_, ?_, ?_⟩
      · intro m1' tr1' heq
        simp at heq
      · show (tr1 ++ cleanupSeq).countP isCleanupMarker = 4
        simp [List.countP_append, h0, h4]
      · exact List.suffix_append tr1 cleanupSeq
  case fuelOut =>
      have h0 : tr1.countP isCleanupMarker = 0 := hmk.trans rfl
      have h4 : cleanupSeq.countP isCleanupMarker = 4 := rfl
      have hfull : mainLoopAux p (pre ++ (now, raw) :: rest) (initialMachine env)
          [Action.showIntro none] = (.quitEvent, m1, tr1) := by
        rw [happ]
        exact mainLoopAux_quit_head p now raw rest m1 tr1 hquit
      rw [hml, hfull]
      refine ⟨Or.inl rfl, ?_, ?_, ?_⟩
      · intro m1' tr1' heq
        cases heq
        rfl
      · show (tr1 ++ cleanupSeq).countP isCleanupMarker = 4
        simp [List.countP_append, h0, h4]
      · exact List.suffix_append tr1 cleanupSeq

/-- Witness for C7: an empty prefix, a quit event in the first batch, and a
processing function with an empty trace. -/
theorem C7_main_loop_cleanup_witness :
    (∀ t ∈ ([] : List TickInput), find_quit_event t.2.reverse = none) ∧
    (find_quit_event ([Event.quit] : List Event).reverse).isSome = true ∧
    ((mainLoop (fun _ _ m => (.ok m, [])) demoEnv ([] ++ (0, [Event.quit]) :: [])).1 =
        .quitEvent ∨
      (mainLoop (fun _ _ m => (.ok m, [])) demoEnv ([] ++ (0, [Event.quit]) :: [])).1 =
        .raised) ∧
    ((mainLoop (fun _ _ m => (.ok m, [])) demoEnv
        ([] ++ (0, [Event.quit]) :: [])).2.2).countP isCleanupMarker = 4 ∧
    cleanupSeq <:+ (mainLoop (fun _ _ m => (.ok m, [])) demoEnv
        ([] ++ (0, [Event.quit]) :: [])).2.2 :=
  ⟨by simp, by decide,
   (C7_main_loop_cleanup (fun _ _ m => (.ok m, [])) demoEnv [] [] 0 [Event.quit]
      (by simp) (by decide) (fun _ _ _ => rfl)).1,
   (C7_main_loop_cleanup (fun _ _ m => (.ok m, [])) demoEnv [] [] 0 [Event.quit]
      (by simp) (by decide) (fun _ _ _ => rfl)).2.2.1,
   (C7_main_loop_cleanup (fun _ _ m => (.ok m, [])) demoEnv [] [] 0 [Event.quit]
      (by simp) (by decide) (fun _ _ _ => rfl)).2.2.2⟩

end Ptb
